import Mathlib

/-!
# Verification of the Arabella video-generation pipeline

Shallow embedding of the core generation pipeline of the Arabella backend:
the `VideoJob` entity and its lifecycle methods
(`internal/domain/entity/video_job.go`), the provider registry / selector
(`internal/infrastructure/provider/mock_provider.go`), the worker polling
loop (`internal/infrastructure/worker/video_worker.go`) and the credit /
cancellation flow of the video use case
(`internal/usecase/video_usecase.go`).

Go strings stay strings; Go `int` becomes `Int` (no overflow is relevant
at the magnitudes involved); Go pointers become `Option`; Go methods that
mutate a struct in place become pure functions returning the updated
struct.  `time.Now()` timestamps are abstracted to `Option Unit`
("set" / "unset"), since no claim concerns clock values.  Calls to
external collaborators (Postgres repository, Redis queue, websocket hub)
are modelled as always succeeding; the statuses the worker hands to them
are recorded in a `writes` trace.
-/

namespace Arabella

/-! ## Entity layer (`internal/domain/entity`) -/

/-- Go `type JobStatus string`: the status field is an arbitrary string,
with seven named constants. -/
abbrev JobStatus := String

def JobStatusPending : JobStatus := "pending"

def JobStatusProcessing : JobStatus := "processing"

def JobStatusDiffusing : JobStatus := "diffusing"

def JobStatusUploading : JobStatus := "uploading"

def JobStatusCompleted : JobStatus := "completed"

def JobStatusFailed : JobStatus := "failed"

def JobStatusCancelled : JobStatus := "cancelled"

/-- The seven wire statuses listed in the entity (`video_job.go` consts). -/
def wireStatuses : List JobStatus :=
  [JobStatusPending, JobStatusProcessing, JobStatusDiffusing, JobStatusUploading,
   JobStatusCompleted, JobStatusFailed, JobStatusCancelled]

/-- Go `type AIProvider string`. -/
abbrev AIProvider := String

def ProviderGeminiVEO : AIProvider := "gemini_veo"

def ProviderMock : AIProvider := "mock"

/-- Embeds `entity.ProviderWanAI`: referenced by the worker and the selector; the
constant itself lives in a revision of the entity package not present under
`src/`.  Per the repository docs (`WANAI_SETUP.md`, `DASHSCOPE_INTEGRATION.md`)
it names the Wan AI / DashScope provider; only its distinctness from the
other provider names matters here. -/
def ProviderWanAI : AIProvider := "wan_ai"

/-- Go `type UserTier string` (`user.go`). -/
abbrev UserTier := String

def UserTierFree : UserTier := "free"

def UserTierPremium : UserTier := "premium"

def UserTierPro : UserTier := "pro"

/-- Go `type VideoResolution string`. -/
abbrev VideoResolution := String

def Resolution720p : VideoResolution := "720p"

def Resolution1080p : VideoResolution := "1080p"

def Resolution4K : VideoResolution := "4k"

/-- Go `type AspectRatio string`. -/
abbrev AspectRatio := String

/-- Embeds `entity.VideoParams` (`template.go`). -/
structure VideoParams where
  duration : Int
  resolution : VideoResolution
  aspectRatio : AspectRatio
  fps : Int
  style : String
  negativePrompt : String
  deriving Repr, DecidableEq

/-- Embeds `entity.DefaultVideoParams` returns 15s / 1080p / 16:9 / 30fps. -/
def DefaultVideoParams : VideoParams :=
  { duration := 15, resolution := Resolution1080p, aspectRatio := "16:9",
    fps := 30, style := "", negativePrompt := "" }

/-- Embeds `entity.VideoJob`.  UUIDs are abstracted to `Nat` identifiers and
`time.Time` fields to `Option Unit` flags. -/
structure VideoJob where
  id : Nat
  userID : Nat
  templateID : Nat
  prompt : String
  params : VideoParams
  status : JobStatus
  progress : Int
  provider : AIProvider
  providerJobID : Option String
  videoURL : Option String
  thumbnailURL : Option String
  durationSeconds : Int
  creditsCharged : Int
  errorMessage : Option String
  startedAt : Option Unit
  completedAt : Option Unit
  deriving Repr, DecidableEq

/-- Embeds `entity.NewVideoJob`. -/
def NewVideoJob (id userID templateID : Nat) (prompt : String)
    (params : VideoParams) (creditCost : Int) : VideoJob :=
  { id := id, userID := userID, templateID := templateID, prompt := prompt,
    params := params, status := JobStatusPending, progress := 0,
    provider := "", providerJobID := none, videoURL := none,
    thumbnailURL := none, durationSeconds := 0, creditsCharged := creditCost,
    errorMessage := none, startedAt := none, completedAt := none }

/-- Embeds `(*VideoJob).StartProcessing`. -/
def VideoJob.startProcessing (j : VideoJob) (provider : AIProvider) : VideoJob :=
  { j with status := JobStatusProcessing, provider := provider, startedAt := some () }

/-- Embeds `(*VideoJob).UpdateProgress`. -/
def VideoJob.updateProgress (j : VideoJob) (progress : Int) (status : JobStatus) : VideoJob :=
  { j with progress := progress, status := status }

/-- Embeds `(*VideoJob).SetProviderJobID`. -/
def VideoJob.setProviderJobID (j : VideoJob) (providerJobID : String) : VideoJob :=
  { j with providerJobID := some providerJobID }

/-- Embeds `(*VideoJob).Complete`. -/
def VideoJob.complete (j : VideoJob) (videoURL thumbnailURL : String) (duration : Int) : VideoJob :=
  { j with
    status := JobStatusCompleted, progress := 100,
    videoURL := some videoURL, thumbnailURL := some thumbnailURL,
    durationSeconds := duration, completedAt := some () }

/-- Embeds `(*VideoJob).Fail`. -/
def VideoJob.fail (j : VideoJob) (errorMessage : String) : VideoJob :=
  { j with
    status := JobStatusFailed, errorMessage := some errorMessage,
    completedAt := some () }

/-- Embeds `(*VideoJob).Cancel`. -/
def VideoJob.cancel (j : VideoJob) : VideoJob :=
  { j with status := JobStatusCancelled, completedAt := some () }

/-- Embeds `(*VideoJob).IsTerminal`. -/
def VideoJob.isTerminal (j : VideoJob) : Bool :=
  j.status == JobStatusCompleted || j.status == JobStatusFailed ||
    j.status == JobStatusCancelled

/-- Embeds `(*VideoJob).CanBeCancelled`. -/
def VideoJob.canBeCancelled (j : VideoJob) : Bool :=
  j.status == JobStatusPending || j.status == JobStatusProcessing

/-! ## Provider abstraction and selector
(`internal/domain/service`, `internal/infrastructure/provider`) -/

/-- Embeds `service.ProviderCapabilities`.  `CostPerSecond float64` is unused by any
selection logic and is omitted. -/
structure ProviderCapabilities where
  name : String
  maxDuration : Int
  maxResolution : VideoResolution
  supportedRatios : List AspectRatio
  estimatedTime : Int
  qualityTier : String
  supportsStyles : Bool
  deriving Repr, DecidableEq

/-- Embeds `service.ProviderHealth`.  `ErrorRate float64` is unused by selection
logic and is omitted. -/
structure ProviderHealth where
  isHealthy : Bool
  queueDepth : Int
  responseTime : Int
  lastChecked : Int
  deriving Repr, DecidableEq

/-- One registered provider as the selector observes it: its name and
capabilities, together with the outcome of `HealthCheck(ctx)` during this
selection call.  `health` is the (possibly nil) `*ProviderHealth` and
`healthErr` records whether the error return was non-nil. -/
structure Provider where
  name : AIProvider
  caps : ProviderCapabilities
  health : Option ProviderHealth
  healthErr : Bool
  deriving Repr, DecidableEq

/-- Embeds `service.ProviderSelectionRequest`. -/
structure ProviderSelectionRequest where
  userTier : UserTier
  preferredProvider : Option AIProvider
  requiredResolution : VideoResolution
  requiredDuration : Int
  aspectRatio : AspectRatio
  deriving Repr, DecidableEq

/-- The `resolutionOrder` map in `supportsResolution` (`mock_provider.go`);
a Go map read returns the zero value `0` for any other string. -/
def resolutionOrder (r : VideoResolution) : Int :=
  if r = Resolution720p then 1
  else if r = Resolution1080p then 2
  else if r = Resolution4K then 3
  else 0

/-- Embeds `supportsResolution(max, required)`. -/
def supportsResolution (max required : VideoResolution) : Bool :=
  resolutionOrder required ≤ resolutionOrder max

/-- Embeds `scoreProvider(provider, userTier)` (`mock_provider.go`): +1000 for Wan AI,
−500 for the mock provider, a quality-tier switch in which only the premium
bonus is gated on the user tier, and +(100 − estimated time). -/
def scoreProvider (p : Provider) (userTier : UserTier) : Int :=
  let base : Int := 0
  let s1 := base + (if p.name = ProviderWanAI then 1000 else 0)
  let s2 := s1 - (if p.name = ProviderMock then 500 else 0)
  let s3 := s2 +
    (if p.caps.qualityTier = "premium" then
       (if userTier ≠ UserTierFree then 30 else 0)
     else if p.caps.qualityTier = "standard" then 20
     else if p.caps.qualityTier = "budget" then 10
     else 0)
  s3 + (100 - p.caps.estimatedTime)

/-- The preferred-provider short-circuit at the top of `SelectProvider`:
with a registered preferred provider, return it if its health check reports
healthy, or if the health object is nil or the health check errored;
when it reports unhealthy without error, neither branch fires and control
falls through to the general filtering path. -/
def preferredChoice (registry : List Provider) (req : ProviderSelectionRequest) :
    Option Provider :=
  match req.preferredProvider with
  | none => none
  | some pref =>
    match registry.find? (fun p => p.name == pref) with
    | none => none
    | some provider =>
      if (match provider.health with
          | some h => h.isHealthy
          | none => false) then
        some provider
      else if provider.health.isNone || provider.healthErr then
        some provider
      else
        none

/-- The body of the eligibility loop of `SelectProvider`: resolution and
duration capability checks, then the lenient health check (an erroring
health check never excludes; an unhealthy result excludes only when the
provider is not the preferred one and more than one provider is
registered).  The commented-out tier gate in the source is omitted, as in
the source. -/
def keepProvider (req : ProviderSelectionRequest) (numProviders : Nat)
    (p : Provider) : Bool :=
  supportsResolution p.caps.maxResolution req.requiredResolution &&
  !(p.caps.maxDuration < req.requiredDuration) &&
  (if p.healthErr then true
   else match p.health with
     | some h =>
       if h.isHealthy then true
       else
         (match req.preferredProvider with
          | some pref => p.name == pref
          | none => false) ||
         !(decide (numProviders > 1))
     | none => true)

/-- The `eligible` list built by `SelectProvider`'s filtering loop. -/
def eligibleProviders (registry : List Provider) (req : ProviderSelectionRequest) :
    List Provider :=
  registry.filter (keepProvider req registry.length)

/-- The best-score scan at the end of `SelectProvider`: start from the first
eligible provider and replace it whenever a strictly greater score is seen. -/
def pickBest (tier : UserTier) (b : Provider) (qs : List Provider) : Provider :=
  qs.foldl (fun best q =>
    if scoreProvider q tier > scoreProvider best tier then q else best) b

/-- Embeds `entity.ErrProviderUnavailable`. -/
def errProviderUnavailable : String := "AI provider unavailable"

/-- Embeds `(*ProviderSelectorImpl).SelectProvider` (`mock_provider.go`).  The
registry is a name-keyed Go map; its (nondeterministic) iteration order is a
parameter, the list order. -/
def selectProvider (registry : List Provider) (req : ProviderSelectionRequest) :
    Except String Provider :=
  match preferredChoice registry req with
  | some p => Except.ok p
  | none =>
    if registry.isEmpty then
      Except.error errProviderUnavailable
    else
      match eligibleProviders registry req with
      | [] => Except.error errProviderUnavailable
      | p :: ps => Except.ok (pickBest req.userTier p ps)

/-! ## Video worker polling loop (`internal/infrastructure/worker/video_worker.go`)

`pollForCompletion` runs on a ticker; each tick either times out, counts a
consecutive error, or consumes one `GetProgress` response.  The sequence of
provider responses observed at the ticks is modelled as a list of
`PollEvent`s.  The repository update, the queue status projection and the
hub broadcast performed on each transition all carry the same
`job.Status` value; that value is appended to a `writes` trace.
The repository itself is modelled as always succeeding (its failures are
external and only logged by the worker). -/

/-- One `GetProgress` outcome at a polling tick: an error (with the Go error
text) or a `*entity.Progress` value `{Percent, Stage, Message}`. -/
inductive PollEvent where
  | err (emsg : String)
  | ok (percent : Int) (stage : String) (message : String)
  deriving Repr, DecidableEq

/-- Outcome of the worker's dynamic `GetVideoURL` capability probe on the
selected provider in `completeJob`: the type assertion can miss, the call can
fail, or it yields a URL. -/
inductive WanFetch where
  | noCapability
  | fetchError
  | fetched (url : String)
  deriving Repr, DecidableEq

/-- Embeds `maxAttempts := 360` in `pollForCompletion`. -/
def maxPollAttempts : Nat := 360

/-- Embeds `maxConsecutiveErrors := 5` in `pollForCompletion`. -/
def maxConsecutiveErrors : Nat := 5

/-- The sample URL hardcoded in `completeJob` for the mock provider and for
any provider other than Wan AI. -/
def bigBuckBunnyURL : String :=
  "https://commondatastorage.googleapis.com/gtv-videos-bucket/sample/BigBuckBunny.mp4"

/-- The loop state of `pollForCompletion` plus the per-transition status
writes.  `finished` records that the Go function has returned. -/
structure WorkerState where
  job : VideoJob
  attempts : Nat
  consecutiveErrors : Nat
  finished : Bool
  writes : List JobStatus
  deriving Repr, DecidableEq

/-- Embeds `initPollState job` is the loop state on entry to `pollForCompletion`. -/
def initPollState (job : VideoJob) : WorkerState :=
  { job := job, attempts := 0, consecutiveErrors := 0, finished := false,
    writes := [] }

/-- Embeds `(*VideoWorker).failJob`: `job.Fail(errorMsg)`, persist, write the
status projection and broadcast a `failed` event, then return. -/
def failStep (s : WorkerState) (errorMsg : String) : WorkerState :=
  let job := s.job.fail errorMsg
  { s with job := job, finished := true, writes := s.writes ++ [job.status] }

/-- Embeds `(*VideoWorker).completeJob`: resolve the video URL (type-asserted
`GetVideoURL` for Wan AI, the hardcoded sample URL otherwise, and a
`dashscope://task/<id>` placeholder if the Wan AI URL is still empty),
default the duration, `job.Complete`, persist and broadcast. -/
def completeStep (wf : WanFetch) (s : WorkerState) : WorkerState :=
  match s.job.providerJobID with
  | none => failStep s "No provider job ID available"
  | some pid =>
    let videoURL :=
      if s.job.provider = ProviderWanAI then
        match wf with
        | WanFetch.fetched url => url
        | _ => ""
      else
        -- the `ProviderMock` branch and the final else branch of the
        -- source assign the same sample URL
        bigBuckBunnyURL
    let thumbnailURL := ""
    let duration := if s.job.params.duration = 0 then 15 else s.job.params.duration
    let videoURL :=
      if videoURL = "" ∧ s.job.provider = ProviderWanAI then
        "dashscope://task/" ++ pid
      else videoURL
    let job := s.job.complete videoURL thumbnailURL duration
    { s with job := job, finished := true, writes := s.writes ++ [job.status] }

/-- One iteration of the `for`/`select` loop of `pollForCompletion`,
consuming one polling tick.  After the loop has returned (`finished`)
nothing further happens. -/
def pollTick (wf : WanFetch) (s : WorkerState) (e : PollEvent) : WorkerState :=
  if s.finished then s
  else if s.attempts + 1 > maxPollAttempts then
    -- attempts++; if attempts > maxAttempts
    failStep { s with attempts := s.attempts + 1 }
      "Video generation timeout after 30 minutes"
  else
    match s.job.providerJobID, e with
    | none, _ =>
      -- if job.ProviderJobID == nil: consecutiveErrors++
      if s.consecutiveErrors + 1 ≥ maxConsecutiveErrors then
        failStep
          { s with attempts := s.attempts + 1,
                   consecutiveErrors := s.consecutiveErrors + 1 }
          "No provider job ID after multiple attempts"
      else
        { s with attempts := s.attempts + 1,
                 consecutiveErrors := s.consecutiveErrors + 1 }
    | some _, PollEvent.err emsg =>
      -- GetProgress returned an error: consecutiveErrors++
      if s.consecutiveErrors + 1 ≥ maxConsecutiveErrors then
        failStep
          { s with attempts := s.attempts + 1,
                   consecutiveErrors := s.consecutiveErrors + 1 }
          ("Failed to get progress after " ++
            toString (s.consecutiveErrors + 1) ++ " attempts: " ++ emsg)
      else
        { s with attempts := s.attempts + 1,
                 consecutiveErrors := s.consecutiveErrors + 1 }
    | some _, PollEvent.ok percent stage message =>
      -- success: reset the error counter, then
      -- `job.Progress = progress.Percent` followed by
      -- `job.UpdateProgress(progress.Percent, entity.JobStatus(progress.Stage))`,
      -- persist, project and broadcast that status
      let s2 :=
        { s with attempts := s.attempts + 1, consecutiveErrors := 0,
                 job := s.job.updateProgress percent stage,
                 writes := s.writes ++ [(s.job.updateProgress percent stage).status] }
      if stage = "COMPLETED" then completeStep wf s2
      else if stage = "FAILED" then failStep s2 message
      else s2

/-- Embeds `pollForCompletion` over a finite sequence of polling ticks. -/
def runPoll (wf : WanFetch) (s : WorkerState) (events : List PollEvent) : WorkerState :=
  events.foldl (pollTick wf) s

/-- The stage strings the mock provider's `GetProgress` derives from a
progress percentage (`mock_provider.go`). -/
def mockStage (progress : Int) : String :=
  if progress > 30 ∧ progress < 80 then "DIFFUSING_FRAMES"
  else if progress ≥ 80 ∧ progress < 100 then "UPLOADING"
  else if progress ≥ 100 then "COMPLETED"
  else "PROCESSING"

/-! ## Video use case (`internal/usecase/video_usecase.go`)

Credit balances live in the users table; `userRepo.UpdateCredits(id, delta)`
is an atomic add, modelled as pure arithmetic on a `balance`.  The user
record fetched by `GetByID` carries `Credits = balance`. -/

/-- Domain errors surfaced by the use-case paths modelled here. -/
inductive UsecaseError where
  | unauthorized
  | jobCannotBeCancelled
  | templateNotActive
  | templatePremiumOnly
  | insufficientCredits
  | createFailed
  | enqueueFailed
  deriving Repr, DecidableEq

/-- Embeds `(*User).IsPremium`: false for the free tier and for an expired
subscription.  `subExpired` stands for "SubscriptionExpiresAt is set and in
the past". -/
def userIsPremium (tier : UserTier) (subExpired : Bool) : Bool :=
  if tier = UserTierFree then false
  else if subExpired then false
  else true

/-- Embeds `(*VideoUseCase).CancelJob` after the job has been fetched: ownership
check, `CanBeCancelled` check, `job.Cancel()` + persist, then a refund of
`job.CreditsCharged` via `UpdateCredits`.  Returns the updated job record
and balance. -/
def cancelJob (callerID : Nat) (job : VideoJob) (balance : Int) :
    Except UsecaseError (VideoJob × Int) :=
  if job.userID ≠ callerID then
    Except.error UsecaseError.unauthorized
  else if ¬job.canBeCancelled then
    Except.error UsecaseError.jobCannotBeCancelled
  else
    let job := job.cancel
    Except.ok (job, balance + job.creditsCharged)

/-- The fields of `entity.Template` read by `GenerateVideo`. -/
structure GvTemplate where
  id : Nat
  isActive : Bool
  isPremium : Bool
  creditCost : Int
  basePrompt : String
  defaultParams : VideoParams
  deriving Repr, DecidableEq

/-- The parameter-merging block of `GenerateVideo`: template defaults
overridden field-by-field by any positive / non-empty request values. -/
def mergeParams (d : VideoParams) (r : Option VideoParams) : VideoParams :=
  match r with
  | none => d
  | some p =>
    { duration := if p.duration > 0 then p.duration else d.duration,
      resolution := if p.resolution ≠ "" then p.resolution else d.resolution,
      aspectRatio := if p.aspectRatio ≠ "" then p.aspectRatio else d.aspectRatio,
      fps := if p.fps > 0 then p.fps else d.fps,
      style := if p.style ≠ "" then p.style else d.style,
      negativePrompt :=
        if p.negativePrompt ≠ "" then p.negativePrompt else d.negativePrompt }

instance {α β : Type} [DecidableEq α] [DecidableEq β] :
    DecidableEq (Except α β) := fun a b =>
  match a, b with
  | Except.error x, Except.error y =>
    if h : x = y then isTrue (by rw [h]) else isFalse (by simp [h])
  | Except.ok x, Except.ok y =>
    if h : x = y then isTrue (by rw [h]) else isFalse (by simp [h])
  | Except.error _, Except.ok _ => isFalse (by simp)
  | Except.ok _, Except.error _ => isFalse (by simp)

/-- Result of `GenerateVideo`: the returned value or error, the user's
credit balance after the call, and the job row as left in the job
repository (`none` when no row was created). -/
structure GvResult where
  result : Except UsecaseError VideoJob
  balance : Int
  stored : Option VideoJob
  deriving Repr, DecidableEq

/-- Embeds `(*VideoUseCase).GenerateVideo`: template-access validation, credit
check, credit deduction, `jobRepo.Create` (refund and propagate on
failure), then `jobQueue.Enqueue` (on failure: mark the job failed,
persist it, propagate the error, and deliberately keep the credits
deducted — the source comments "will be refunded by cleanup").
`createFails` / `enqueueFails` inject the storage failures. -/
def generateVideo (userID : Nat) (tier : UserTier) (subExpired : Bool)
    (template : GvTemplate) (reqPrompt : String) (reqParams : Option VideoParams)
    (createFails enqueueFails : Bool) (jobID : Nat) (balance : Int) : GvResult :=
  if ¬template.isActive then
    { result := Except.error UsecaseError.templateNotActive,
      balance := balance, stored := none }
  else if template.isPremium ∧ ¬userIsPremium tier subExpired then
    { result := Except.error UsecaseError.templatePremiumOnly,
      balance := balance, stored := none }
  else if balance < template.creditCost then
    -- `!user.HasSufficientCredits(template.CreditCost)`
    { result := Except.error UsecaseError.insufficientCredits,
      balance := balance, stored := none }
  else
    let params := mergeParams template.defaultParams reqParams
    let fullPrompt := template.basePrompt ++ ". " ++ reqPrompt
    let job := NewVideoJob jobID userID template.id fullPrompt params
      template.creditCost
    let balance := balance - template.creditCost
    if createFails then
      -- refund credits on failure
      { result := Except.error UsecaseError.createFailed,
        balance := balance + template.creditCost, stored := none }
    else if enqueueFails then
      -- mark job as failed but keep credits deducted
      let job := job.fail "Failed to enqueue job"
      { result := Except.error UsecaseError.enqueueFailed,
        balance := balance, stored := some job }
    else
      { result := Except.ok job, balance := balance, stored := some job }

/-! ## Concrete fixtures used by counterexamples and witnesses -/

/-- A healthy health-check snapshot. -/
def healthOK : ProviderHealth :=
  { isHealthy := true, queueDepth := 0, responseTime := 50, lastChecked := 0 }

/-- An unhealthy health-check snapshot (no error returned). -/
def healthBad : ProviderHealth :=
  { isHealthy := false, queueDepth := 0, responseTime := 50, lastChecked := 0 }

/-- Capabilities of the Wan AI provider as a premium 1080p/60s backend. -/
def wanCaps : ProviderCapabilities :=
  { name := "Wan AI", maxDuration := 60, maxResolution := Resolution1080p,
    supportedRatios := ["16:9"], estimatedTime := 30, qualityTier := "premium",
    supportsStyles := true }

/-- Capabilities of the mock provider, from `(*MockProvider).GetCapabilities`. -/
def mockCaps : ProviderCapabilities :=
  { name := "Mock Provider", maxDuration := 60, maxResolution := Resolution1080p,
    supportedRatios := ["16:9", "9:16", "1:1"], estimatedTime := 5,
    qualityTier := "standard", supportsStyles := true }

/-- Wan AI provider whose health check reported healthy. -/
def wanHealthy : Provider :=
  { name := ProviderWanAI, caps := wanCaps, health := some healthOK,
    healthErr := false }

/-- Mock provider whose health check reported unhealthy with a nil error. -/
def mockUnhealthy : Provider :=
  { name := ProviderMock, caps := mockCaps, health := some healthBad,
    healthErr := false }

/-- A generic standard-tier provider that is neither Wan AI nor the mock. -/
def stdProvider : Provider :=
  { name := "other_provider",
    caps := { name := "Other", maxDuration := 60,
              maxResolution := Resolution1080p, supportedRatios := ["16:9"],
              estimatedTime := 5, qualityTier := "standard",
              supportsStyles := true },
    health := some healthOK, healthErr := false }

/-- Wan AI provider capped at 5 seconds of video. -/
def shortWan : Provider :=
  { name := ProviderWanAI,
    caps := { wanCaps with maxDuration := 5 },
    health := some healthOK, healthErr := false }

/-- A selection request preferring the mock provider. -/
def reqPreferMock : ProviderSelectionRequest :=
  { userTier := UserTierFree, preferredProvider := some ProviderMock,
    requiredResolution := Resolution720p, requiredDuration := 15,
    aspectRatio := "16:9" }

/-- A selection request preferring Wan AI. -/
def reqPreferWan : ProviderSelectionRequest :=
  { userTier := UserTierFree, preferredProvider := some ProviderWanAI,
    requiredResolution := Resolution720p, requiredDuration := 15,
    aspectRatio := "16:9" }

/-- A selection request preferring Wan AI but needing 10 seconds of video. -/
def reqPreferWan10s : ProviderSelectionRequest :=
  { userTier := UserTierFree, preferredProvider := some ProviderWanAI,
    requiredResolution := Resolution720p, requiredDuration := 10,
    aspectRatio := "16:9" }

/-- A selection request with no preferred provider. -/
def reqNoPreference : ProviderSelectionRequest :=
  { userTier := UserTierFree, preferredProvider := none,
    requiredResolution := Resolution720p, requiredDuration := 15,
    aspectRatio := "16:9" }

/-- Modelled from the claim's words for C5: the score with the whole
quality-tier bonus granted only when the user tier is not free. -/
def claimScoreFullyGated (p : Provider) (userTier : UserTier) : Int :=
  0 + (if p.name = ProviderWanAI then 1000 else 0)
    - (if p.name = ProviderMock then 500 else 0)
    + (if userTier ≠ UserTierFree then
         (if p.caps.qualityTier = "premium" then 30
          else if p.caps.qualityTier = "standard" then 20
          else if p.caps.qualityTier = "budget" then 10
          else 0)
       else 0)
    + (100 - p.caps.estimatedTime)

/-- Modelled from the amended claim for C5: only the premium bonus is gated
on a non-free tier; the standard and budget bonuses apply to every tier. -/
def claimScoreAmended (p : Provider) (userTier : UserTier) : Int :=
  0 + (if p.name = ProviderWanAI then 1000 else 0)
    - (if p.name = ProviderMock then 500 else 0)
    + (if p.caps.qualityTier = "premium" ∧ userTier ≠ UserTierFree then 30
       else if p.caps.qualityTier = "standard" then 20
       else if p.caps.qualityTier = "budget" then 10
       else 0)
    + (100 - p.caps.estimatedTime)

/-- Labels an event whose stage string, cast to a `JobStatus`, is not one of
the three terminal wire strings.  Every provider in the repository emits
only uppercase stage labels (`PROCESSING`, `DIFFUSING_FRAMES`, `UPLOADING`,
`COMPLETED`, and `PENDING` / `FAILED` for DashScope), so every event the
worker can actually observe satisfies this predicate. -/
def goodEvent : PollEvent → Bool
  | PollEvent.err _ => true
  | PollEvent.ok _ stage _ =>
    stage != JobStatusCompleted && stage != JobStatusFailed &&
      stage != JobStatusCancelled

/-- A job as the worker hands it to `pollForCompletion`: dequeued, marked
processing against the mock provider, provider job ID recorded. -/
def demoJob : VideoJob :=
  ((NewVideoJob 1 2 3 "a demo prompt" DefaultVideoParams 1).startProcessing
    ProviderMock).setProviderJobID "mock-task-1"

/-- A job bound to the Wan AI provider, for exercising `completeJob`. -/
def demoWanJob : VideoJob :=
  ((NewVideoJob 4 2 3 "a demo prompt" DefaultVideoParams 1).startProcessing
    ProviderWanAI).setProviderJobID "dash-task-9"

/-- A freshly created pending job owned by user 7, charged 3 credits. -/
def demoPendingJob : VideoJob :=
  NewVideoJob 10 7 3 "another demo prompt" DefaultVideoParams 3

/-- A completed job owned by user 7. -/
def demoDoneJob : VideoJob :=
  (NewVideoJob 11 7 3 "another demo prompt" DefaultVideoParams 3).complete
    "https://example.invalid/v.mp4" "" 15

/-- An active, non-premium template costing 1 credit. -/
def demoTemplate : GvTemplate :=
  { id := 3, isActive := true, isPremium := false, creditCost := 1,
    basePrompt := "A cinematic base prompt", defaultParams := DefaultVideoParams }

/-! ## Helper lemmas on the selector -/

/-- The best-score scan returns its seed or one of the scanned providers. -/
theorem pickBest_eq_or_mem (tier : UserTier) (b : Provider) (qs : List Provider) :
    pickBest tier b qs = b ∨ pickBest tier b qs ∈ qs := by
  induction qs generalizing b with
  | nil => exact Or.inl rfl
  | cons q qs ih =>
    simp only [pickBest, List.foldl_cons] at *
    rcases ih (if scoreProvider q tier > scoreProvider b tier then q else b) with h | h
    · rw [h]
      split
      · exact Or.inr (List.mem_cons_self _ _)
      · exact Or.inl rfl
    · exact Or.inr (List.mem_cons_of_mem _ h)

/-- The best-score scan result scores at least the seed and every scanned
provider. -/
theorem pickBest_score_le (tier : UserTier) (b : Provider) (qs : List Provider) :
    scoreProvider b tier ≤ scoreProvider (pickBest tier b qs) tier ∧
    ∀ q ∈ qs, scoreProvider q tier ≤ scoreProvider (pickBest tier b qs) tier := by
  induction qs generalizing b with
  | nil => exact ⟨le_refl _, by simp⟩
  | cons q qs ih =>
    simp only [pickBest, List.foldl_cons] at *
    obtain ⟨h1, h2⟩ := ih (if scoreProvider q tier > scoreProvider b tier then q else b)
    constructor
    · refine le_trans ?_ h1
      split <;> omega
    · intro r hr
      rcases List.mem_cons.mp hr with rfl | hr
      · refine le_trans ?_ h1
        split <;> omega
      · exact h2 r hr

/-- When the preferred-provider short-circuit does not fire, a successful
selection yields a member of the eligible list that maximises the score. -/
theorem selectProvider_scoring (registry : List Provider)
    (req : ProviderSelectionRequest) (p : Provider)
    (hpref : preferredChoice registry req = none)
    (hsel : selectProvider registry req = Except.ok p) :
    p ∈ eligibleProviders registry req ∧
    ∀ q ∈ eligibleProviders registry req,
      scoreProvider q req.userTier ≤ scoreProvider p req.userTier := by
  unfold selectProvider at hsel
  rw [hpref] at hsel
  dsimp only at hsel
  by_cases hemp : registry.isEmpty = true
  · rw [if_pos hemp] at hsel
    exact absurd hsel (by simp)
  · rw [if_neg hemp] at hsel
    cases he : eligibleProviders registry req with
    | nil => rw [he] at hsel; exact absurd hsel (by simp)
    | cons a as =>
      rw [he] at hsel
      dsimp only at hsel
      simp only [Except.ok.injEq] at hsel
      subst hsel
      constructor
      · rcases pickBest_eq_or_mem req.userTier a as with h | h
        · rw [h]; exact List.mem_cons_self _ _
        · exact List.mem_cons_of_mem _ h
      · intro q hq
        obtain ⟨h1, h2⟩ := pickBest_score_le req.userTier a as
        rcases List.mem_cons.mp hq with rfl | hq
        · exact h1
        · exact h2 q hq

/-- Membership in the eligible list implies the duration capability check
passed. -/
theorem eligible_duration (registry : List Provider)
    (req : ProviderSelectionRequest) (p : Provider)
    (hp : p ∈ eligibleProviders registry req) :
    req.requiredDuration ≤ p.caps.maxDuration := by
  unfold eligibleProviders at hp
  have := (List.mem_filter.mp hp).2
  unfold keepProvider at this
  simp only [Bool.and_assoc, Bool.and_eq_true, Bool.not_eq_true',
    decide_eq_false_iff_not, not_lt] at this
  exact this.2.1

/-! ## Claims C3, C4, C5: provider selection -/

/-- C3 counterexample: the mock provider is the preferred provider and is
registered, but its health check reports unhealthy with a nil error, so
`SelectProvider` falls through to the scoring path and returns the Wan AI
provider instead of the preferred one — refuting "returns that provider
regardless of the outcome of the provider's health check". -/
theorem selector_unhealthy_preferred_bypassed :
    reqPreferMock.preferredProvider = some ProviderMock ∧
    List.find? (fun p => p.name == ProviderMock) [mockUnhealthy, wanHealthy] =
      some mockUnhealthy ∧
    selectProvider [mockUnhealthy, wanHealthy] reqPreferMock =
      Except.ok wanHealthy ∧
    wanHealthy ≠ mockUnhealthy := by
  refine ⟨rfl, rfl, rfl, ?_⟩
  decide

/-- C3 (amended): a registered preferred provider is returned whenever its
health check reports healthy, or returns no health object, or errors; only
an unhealthy report with a nil error makes selection fall through to the
general filtering path. -/
theorem preferred_provider_returned (registry : List Provider)
    (req : ProviderSelectionRequest) (pref : AIProvider) (prov : Provider)
    (h1 : req.preferredProvider = some pref)
    (h2 : registry.find? (fun p => p.name == pref) = some prov)
    (h3 : (∃ h, prov.health = some h ∧ h.isHealthy = true) ∨
          prov.health = none ∨ prov.healthErr = true) :
    selectProvider registry req = Except.ok prov := by
  have hp : preferredChoice registry req = some prov := by
    unfold preferredChoice
    rw [h1]
    dsimp only
    rw [h2]
    dsimp only
    rcases h3 with ⟨h, hh, hb⟩ | hn | he
    · simp [hh, hb]
    · simp [hn]
    · cases hh : prov.health with
      | none => simp
      | some h =>
        cases hb : h.isHealthy with
        | true => simp [hb]
        | false => simp [hb, he]
  unfold selectProvider
  rw [hp]

/-- Witness for C3 (amended) at a concrete healthy preferred provider. -/
theorem preferred_provider_returned_witness :
    selectProvider [wanHealthy] reqPreferWan = Except.ok wanHealthy :=
  preferred_provider_returned [wanHealthy] reqPreferWan ProviderWanAI wanHealthy
    rfl rfl (Or.inl ⟨healthOK, rfl, rfl⟩)

/-- C4 counterexample: a registered, healthy preferred provider whose
`MaxDuration` (5) is strictly below the required duration (10) is still the
provider returned, because the preferred-provider short-circuit skips the
capability filter entirely. -/
theorem preferred_shortcut_skips_duration_filter :
    selectProvider [shortWan] reqPreferWan10s = Except.ok shortWan ∧
    shortWan.caps.maxDuration < reqPreferWan10s.requiredDuration := by
  refine ⟨rfl, ?_⟩
  decide

/-- C4 (amended): whenever the preferred-provider short-circuit does not
fire, the provider returned by `SelectProvider` has
`MaxDuration ≥ RequiredDuration`; a provider with `MaxDuration` below the
required duration can only be returned through the preferred-provider
short-circuit. -/
theorem selected_provider_meets_duration (registry : List Provider)
    (req : ProviderSelectionRequest) (p : Provider)
    (hpref : preferredChoice registry req = none)
    (hsel : selectProvider registry req = Except.ok p) :
    req.requiredDuration ≤ p.caps.maxDuration :=
  eligible_duration registry req p
    (selectProvider_scoring registry req p hpref hsel).1

/-- Witness for C4 (amended) at a concrete non-preferred selection. -/
theorem selected_provider_meets_duration_witness :
    reqNoPreference.requiredDuration ≤ stdProvider.caps.maxDuration :=
  selected_provider_meets_duration [stdProvider] reqNoPreference stdProvider
    rfl rfl

/-- C5 counterexample: for a free-tier user and a standard-quality provider
the code still adds the +20 standard bonus (score 115), while the claimed
formula (quality-tier bonus only for non-free tiers) yields 95. -/
theorem score_standard_bonus_not_tier_gated :
    scoreProvider stdProvider UserTierFree = 115 ∧
    claimScoreFullyGated stdProvider UserTierFree = 95 ∧
    scoreProvider stdProvider UserTierFree ≠
      claimScoreFullyGated stdProvider UserTierFree := by
  refine ⟨rfl, rfl, ?_⟩
  decide

/-- C5 (amended): the selector's score is base 0, +1000 for Wan AI, −500
for the mock provider, +30 for premium quality only on non-free tiers while
+20 standard and +10 budget apply to all tiers, plus (100 − estimated
seconds-per-second); and on the scoring path `SelectProvider` returns an
eligible provider whose score is maximal. -/
theorem score_formula_and_maximality (registry : List Provider)
    (req : ProviderSelectionRequest) (p : Provider)
    (hpref : preferredChoice registry req = none)
    (hsel : selectProvider registry req = Except.ok p) :
    (∀ q tier, scoreProvider q tier = claimScoreAmended q tier) ∧
    p ∈ eligibleProviders registry req ∧
    ∀ q ∈ eligibleProviders registry req,
      scoreProvider q req.userTier ≤ scoreProvider p req.userTier := by
  obtain ⟨hmem, hmax⟩ := selectProvider_scoring registry req p hpref hsel
  refine ⟨?_, hmem, hmax⟩
  intro q tier
  unfold scoreProvider claimScoreAmended
  by_cases h1 : q.caps.qualityTier = "premium" <;>
    by_cases h2 : tier = UserTierFree <;>
      simp [h1, h2]

/-- Witness for C5 (amended) at a concrete non-preferred selection. -/
theorem score_formula_and_maximality_witness :
    (∀ q tier, scoreProvider q tier = claimScoreAmended q tier) ∧
    stdProvider ∈ eligibleProviders [stdProvider] reqNoPreference ∧
    ∀ q ∈ eligibleProviders [stdProvider] reqNoPreference,
      scoreProvider q reqNoPreference.userTier ≤
        scoreProvider stdProvider reqNoPreference.userTier :=
  score_formula_and_maximality [stdProvider] reqNoPreference stdProvider
    rfl rfl

/-! ## Helper lemmas on the polling loop -/

/-- Once the loop has returned, a tick does nothing. -/
theorem pollTick_of_finished (wf : WanFetch) (s : WorkerState) (e : PollEvent)
    (h : s.finished = true) : pollTick wf s e = s := by
  unfold pollTick
  rw [if_pos h]

/-- Once the loop has returned, any further event sequence does nothing. -/
theorem runPoll_of_finished (wf : WanFetch) (s : WorkerState)
    (evs : List PollEvent) (h : s.finished = true) : runPoll wf s evs = s := by
  induction evs with
  | nil => rfl
  | cons e evs ih =>
    unfold runPoll at *
    rw [List.foldl_cons, pollTick_of_finished wf s e h]
    exact ih

/-- A `completeJob` call ends the loop and leaves the job either failed
(missing provider job ID) or completed. -/
theorem completeStep_result (wf : WanFetch) (s : WorkerState) :
    (∃ m, (completeStep wf s).job = s.job.fail m ∧
       (completeStep wf s).finished = true) ∨
    (∃ u t d, (completeStep wf s).job = s.job.complete u t d ∧
       (completeStep wf s).finished = true) := by
  unfold completeStep
  cases h : s.job.providerJobID with
  | none => exact Or.inl ⟨_, rfl, rfl⟩
  | some pid => exact Or.inr ⟨_, _, _, rfl, rfl⟩

/-- Case analysis of one polling tick: it is a no-op, or it fails the job,
or it completes the job, or it only bumps counters, or it records the
provider-reported progress and stage and continues. -/
theorem pollTick_result (wf : WanFetch) (s : WorkerState) (e : PollEvent) :
    pollTick wf s e = s ∨
    (∃ j m, (pollTick wf s e).job = VideoJob.fail j m ∧
       (pollTick wf s e).finished = true) ∨
    (∃ j u t d, (pollTick wf s e).job = VideoJob.complete j u t d ∧
       (pollTick wf s e).finished = true) ∨
    ((pollTick wf s e).finished = s.finished ∧
       (pollTick wf s e).job = s.job) ∨
    (∃ pct stage msg, e = PollEvent.ok pct stage msg ∧
       stage ≠ "COMPLETED" ∧ stage ≠ "FAILED" ∧
       (pollTick wf s e).finished = s.finished ∧
       (pollTick wf s e).job = s.job.updateProgress pct stage) := by
  unfold pollTick
  by_cases h0 : s.finished = true
  · rw [if_pos h0]
    exact Or.inl rfl
  · rw [if_neg h0]
    by_cases h1 : s.attempts + 1 > maxPollAttempts
    · rw [if_pos h1]
      exact Or.inr (Or.inl ⟨_, _, rfl, rfl⟩)
    · rw [if_neg h1]
      cases hpid : s.job.providerJobID with
      | none =>
        dsimp only
        by_cases h2 : s.consecutiveErrors + 1 ≥ maxConsecutiveErrors
        · rw [if_pos h2]
          exact Or.inr (Or.inl ⟨_, _, rfl, rfl⟩)
        · rw [if_neg h2]
          exact Or.inr (Or.inr (Or.inr (Or.inl ⟨rfl, rfl⟩)))
      | some pid =>
        cases e with
        | err emsg =>
          dsimp only
          by_cases h2 : s.consecutiveErrors + 1 ≥ maxConsecutiveErrors
          · rw [if_pos h2]
            exact Or.inr (Or.inl ⟨_, _, rfl, rfl⟩)
          · rw [if_neg h2]
            exact Or.inr (Or.inr (Or.inr (Or.inl ⟨rfl, rfl⟩)))
        | ok pct stage msg =>
          dsimp only
          by_cases hc : stage = "COMPLETED"
          · rw [if_pos hc]
            rcases completeStep_result wf
                { s with attempts := s.attempts + 1, consecutiveErrors := 0,
                         job := s.job.updateProgress pct stage,
                         writes := s.writes ++
                           [(s.job.updateProgress pct stage).status] } with
              ⟨m, hj, hf⟩ | ⟨u, t, d, hj, hf⟩
            · exact Or.inr (Or.inl ⟨_, m, hj, hf⟩)
            · exact Or.inr (Or.inr (Or.inl ⟨_, u, t, d, hj, hf⟩))
          · rw [if_neg hc]
            by_cases hf2 : stage = "FAILED"
            · rw [if_pos hf2]
              exact Or.inr (Or.inl ⟨_, _, rfl, rfl⟩)
            · rw [if_neg hf2]
              exact Or.inr (Or.inr (Or.inr (Or.inr
                ⟨pct, stage, msg, rfl, hc, hf2, rfl, rfl⟩)))

/-- One tick preserves "not yet returned implies non-terminal", given that
the event's stage is not a raw terminal wire string. -/
theorem pollTick_preserves_nonterminal (wf : WanFetch) (s : WorkerState)
    (e : PollEvent) (hg : goodEvent e = true)
    (hs : s.finished = false → s.job.isTerminal = false) :
    (pollTick wf s e).finished = false →
      (pollTick wf s e).job.isTerminal = false := by
  intro hfin
  rcases pollTick_result wf s e with
    heq | ⟨j, m, hj, hf⟩ | ⟨j, u, t, d, hj, hf⟩ | ⟨hf, hj⟩ |
    ⟨pct, stage, msg, he, _, _, _, hj⟩
  · rw [heq] at hfin ⊢
    exact hs hfin
  · rw [hf] at hfin
    exact Bool.noConfusion hfin
  · rw [hf] at hfin
    exact Bool.noConfusion hfin
  · rw [hj]
    rw [hf] at hfin
    exact hs hfin
  · rw [hj]
    subst he
    simp only [goodEvent, Bool.and_eq_true, bne_iff_ne] at hg
    simp only [VideoJob.updateProgress, VideoJob.isTerminal,
      JobStatusCompleted, JobStatusFailed, JobStatusCancelled,
      Bool.or_eq_false_iff, beq_eq_false_iff_ne]
    exact ⟨⟨hg.1.1, hg.1.2⟩, hg.2⟩

/-- A whole run preserves "not yet returned implies non-terminal". -/
theorem runPoll_preserves_nonterminal (wf : WanFetch) (evs : List PollEvent)
    (s : WorkerState) (hg : ∀ e ∈ evs, goodEvent e = true)
    (hs : s.finished = false → s.job.isTerminal = false) :
    (runPoll wf s evs).finished = false →
      (runPoll wf s evs).job.isTerminal = false := by
  induction evs generalizing s with
  | nil => exact hs
  | cons e evs ih =>
    unfold runPoll at *
    rw [List.foldl_cons]
    exact ih _ (fun x hx => hg x (List.mem_cons_of_mem e hx))
      (pollTick_preserves_nonterminal wf s e (hg e (List.mem_cons_self e evs)) hs)

/-- One tick preserves "status completed implies progress 100", given that
the event's stage is not a raw terminal wire string. -/
theorem pollTick_preserves_completed100 (wf : WanFetch) (s : WorkerState)
    (e : PollEvent) (hg : goodEvent e = true)
    (hs : s.job.status = JobStatusCompleted → s.job.progress = 100) :
    (pollTick wf s e).job.status = JobStatusCompleted →
      (pollTick wf s e).job.progress = 100 := by
  rcases pollTick_result wf s e with
    heq | ⟨j, m, hj, _⟩ | ⟨j, u, t, d, hj, _⟩ | ⟨_, hj⟩ |
    ⟨pct, stage, msg, he, _, _, _, hj⟩
  · rw [heq]
    exact hs
  · rw [hj]
    intro hcontra
    exact absurd hcontra (by simp [VideoJob.fail, JobStatusFailed, JobStatusCompleted])
  · rw [hj]
    intro _
    rfl
  · rw [hj]
    exact hs
  · rw [hj]
    subst he
    simp only [goodEvent, Bool.and_eq_true, bne_iff_ne] at hg
    intro hcontra
    exact absurd hcontra (by simp [VideoJob.updateProgress, hg.1.1])

/-- A whole run preserves "status completed implies progress 100". -/
theorem runPoll_preserves_completed100 (wf : WanFetch) (evs : List PollEvent)
    (s : WorkerState) (hg : ∀ e ∈ evs, goodEvent e = true)
    (hs : s.job.status = JobStatusCompleted → s.job.progress = 100) :
    (runPoll wf s evs).job.status = JobStatusCompleted →
      (runPoll wf s evs).job.progress = 100 := by
  induction evs generalizing s with
  | nil => exact hs
  | cons e evs ih =>
    unfold runPoll at *
    rw [List.foldl_cons]
    exact ih _ (fun x hx => hg x (List.mem_cons_of_mem e hx))
      (pollTick_preserves_completed100 wf s e (hg e (List.mem_cons_self e evs)) hs)

/-- Running a concatenated event sequence runs the two parts in order. -/
theorem runPoll_append (wf : WanFetch) (s : WorkerState)
    (evs1 evs2 : List PollEvent) :
    runPoll wf s (evs1 ++ evs2) = runPoll wf (runPoll wf s evs1) evs2 := by
  unfold runPoll
  rw [List.foldl_append]

/-! ## Claims C1, C2, C6, C7, C10: the worker loop -/

/-- C1: for every job entering the polling loop non-terminal, and every
sequence of provider responses whose stage labels are not raw lowercase
terminal wire strings (every provider in the repository emits only
uppercase stage labels), once the job's status has reached a terminal value
the remaining polling ticks change nothing at all: the job (status,
provider and result fields included) and the persisted/broadcast trace stay
exactly as they were. -/
theorem terminal_state_frozen (wf : WanFetch) (job : VideoJob)
    (evs1 evs2 : List PollEvent)
    (hnt : job.isTerminal = false)
    (hg : ∀ e ∈ evs1, goodEvent e = true)
    (hterm : (runPoll wf (initPollState job) evs1).job.isTerminal = true) :
    runPoll wf (initPollState job) (evs1 ++ evs2) =
      runPoll wf (initPollState job) evs1 := by
  have hfin : (runPoll wf (initPollState job) evs1).finished = true := by
    cases hb : (runPoll wf (initPollState job) evs1).finished with
    | true => rfl
    | false =>
      have hx := runPoll_preserves_nonterminal wf evs1 (initPollState job) hg
        (fun _ => hnt) hb
      rw [hterm] at hx
      exact Bool.noConfusion hx
  rw [runPoll_append]
  exact runPoll_of_finished wf _ evs2 hfin

/-- Witness for C1: the mock job completes on the first poll and a further
`PROCESSING` poll changes nothing. -/
theorem terminal_state_frozen_witness :
    runPoll WanFetch.noCapability (initPollState demoJob)
        ([PollEvent.ok 100 "COMPLETED" "done"] ++
          [PollEvent.ok 10 "PROCESSING" "again"]) =
      runPoll WanFetch.noCapability (initPollState demoJob)
        [PollEvent.ok 100 "COMPLETED" "done"] :=
  terminal_state_frozen WanFetch.noCapability demoJob
    [PollEvent.ok 100 "COMPLETED" "done"] [PollEvent.ok 10 "PROCESSING" "again"]
    (by decide) (by decide) (by decide)

/-- C2: exactly five consecutive `GetProgress` failures fail the job with
the repeated-polling-failure message, while four failures followed by one
successful non-terminal poll reset the consecutive-error counter to zero
and leave the job non-terminal with the loop still running. -/
theorem consecutive_error_threshold (wf : WanFetch) (job : VideoJob)
    (pid m1 m2 m3 m4 m5 : String) (pct : Int) (stage pmsg : String)
    (hpid : job.providerJobID = some pid)
    (hc : stage ≠ "COMPLETED") (hf : stage ≠ "FAILED")
    (hg : goodEvent (PollEvent.ok pct stage pmsg) = true) :
    ((runPoll wf (initPollState job)
        [PollEvent.err m1, PollEvent.err m2, PollEvent.err m3,
         PollEvent.err m4, PollEvent.err m5]).job.status = JobStatusFailed ∧
     (runPoll wf (initPollState job)
        [PollEvent.err m1, PollEvent.err m2, PollEvent.err m3,
         PollEvent.err m4, PollEvent.err m5]).job.errorMessage =
       some ("Failed to get progress after " ++ toString (5 : Nat) ++
         " attempts: " ++ m5) ∧
     (runPoll wf (initPollState job)
        [PollEvent.err m1, PollEvent.err m2, PollEvent.err m3,
         PollEvent.err m4, PollEvent.err m5]).finished = true) ∧
    ((runPoll wf (initPollState job)
        [PollEvent.err m1, PollEvent.err m2, PollEvent.err m3,
         PollEvent.err m4, PollEvent.ok pct stage pmsg]).consecutiveErrors = 0 ∧
     (runPoll wf (initPollState job)
        [PollEvent.err m1, PollEvent.err m2, PollEvent.err m3,
         PollEvent.err m4, PollEvent.ok pct stage pmsg]).finished = false ∧
     (runPoll wf (initPollState job)
        [PollEvent.err m1, PollEvent.err m2, PollEvent.err m3,
         PollEvent.err m4, PollEvent.ok pct stage pmsg]).job.isTerminal = false) := by
  simp only [goodEvent, Bool.and_eq_true, bne_iff_ne] at hg
  constructor
  · simp [runPoll, pollTick, initPollState, hpid, maxPollAttempts,
      maxConsecutiveErrors, failStep, VideoJob.fail]
  · simp [runPoll, pollTick, initPollState, hpid, maxPollAttempts,
      maxConsecutiveErrors, hc, hf, VideoJob.updateProgress,
      VideoJob.isTerminal, JobStatusCompleted, JobStatusFailed,
      JobStatusCancelled]
    exact ⟨⟨hg.1.1, hg.1.2⟩, hg.2⟩

/-- Witness for C2 on the mock job with concrete error messages. -/
theorem consecutive_error_threshold_witness :
    ((runPoll WanFetch.noCapability (initPollState demoJob)
        [PollEvent.err "timeout", PollEvent.err "timeout", PollEvent.err "timeout",
         PollEvent.err "timeout", PollEvent.err "timeout"]).job.status =
       JobStatusFailed ∧
     (runPoll WanFetch.noCapability (initPollState demoJob)
        [PollEvent.err "timeout", PollEvent.err "timeout", PollEvent.err "timeout",
         PollEvent.err "timeout", PollEvent.err "timeout"]).job.errorMessage =
       some ("Failed to get progress after " ++ toString (5 : Nat) ++
         " attempts: " ++ "timeout") ∧
     (runPoll WanFetch.noCapability (initPollState demoJob)
        [PollEvent.err "timeout", PollEvent.err "timeout", PollEvent.err "timeout",
         PollEvent.err "timeout", PollEvent.err "timeout"]).finished = true) ∧
    ((runPoll WanFetch.noCapability (initPollState demoJob)
        [PollEvent.err "timeout", PollEvent.err "timeout", PollEvent.err "timeout",
         PollEvent.err "timeout",
         PollEvent.ok 40 "PROCESSING" "ok"]).consecutiveErrors = 0 ∧
     (runPoll WanFetch.noCapability (initPollState demoJob)
        [PollEvent.err "timeout", PollEvent.err "timeout", PollEvent.err "timeout",
         PollEvent.err "timeout",
         PollEvent.ok 40 "PROCESSING" "ok"]).finished = false ∧
     (runPoll WanFetch.noCapability (initPollState demoJob)
        [PollEvent.err "timeout", PollEvent.err "timeout", PollEvent.err "timeout",
         PollEvent.err "timeout",
         PollEvent.ok 40 "PROCESSING" "ok"]).job.isTerminal = false) :=
  consecutive_error_threshold WanFetch.noCapability demoJob "mock-task-1"
    "timeout" "timeout" "timeout" "timeout" "timeout" 40 "PROCESSING" "ok"
    rfl (by decide) (by decide) (by decide)

/-- C6 counterexample: the worker copies the provider-reported percent
verbatim, so a poll reporting 50% followed by one reporting 30% makes the
job's progress decrease from 50 to 30 while its status stays
non-terminal — refuting monotone non-decrease. -/
theorem progress_not_monotone :
    (runPoll WanFetch.noCapability (initPollState demoJob)
        [PollEvent.ok 50 "PROCESSING" "p"]).job.progress = 50 ∧
    (runPoll WanFetch.noCapability (initPollState demoJob)
        [PollEvent.ok 50 "PROCESSING" "p"]).job.isTerminal = false ∧
    (runPoll WanFetch.noCapability (initPollState demoJob)
        [PollEvent.ok 50 "PROCESSING" "p",
         PollEvent.ok 30 "PROCESSING" "q"]).job.progress = 30 ∧
    (runPoll WanFetch.noCapability (initPollState demoJob)
        [PollEvent.ok 50 "PROCESSING" "p",
         PollEvent.ok 30 "PROCESSING" "q"]).job.isTerminal = false := by
  decide

/-- C6 (amended): on every successful poll that does not report the
`COMPLETED` stage the worker records the provider-reported percent exactly
as given (so progress is non-decreasing only when the provider's reports
are); and over any run whose stage labels are not raw terminal wire
strings, whenever the job's status is `completed` its progress is exactly
100. -/
theorem progress_verbatim_and_completed100 (wf : WanFetch) (s : WorkerState)
    (pct : Int) (stage pmsg : String) (evs : List PollEvent) (job : VideoJob)
    (hfin : s.finished = false)
    (hpid : s.job.providerJobID.isSome = true)
    (hatt : ¬s.attempts + 1 > maxPollAttempts)
    (hc : stage ≠ "COMPLETED")
    (hg : ∀ e ∈ evs, goodEvent e = true)
    (h100 : job.status = JobStatusCompleted → job.progress = 100) :
    (pollTick wf s (PollEvent.ok pct stage pmsg)).job.progress = pct ∧
    ((runPoll wf (initPollState job) evs).job.status = JobStatusCompleted →
      (runPoll wf (initPollState job) evs).job.progress = 100) := by
  constructor
  · obtain ⟨pid, hp⟩ := Option.isSome_iff_exists.mp hpid
    unfold pollTick
    rw [if_neg (by simp [hfin]), if_neg hatt, hp]
    dsimp only
    rw [if_neg hc]
    by_cases hf2 : stage = "FAILED"
    · rw [if_pos hf2]
      rfl
    · rw [if_neg hf2]
      rfl
  · exact runPoll_preserves_completed100 wf evs (initPollState job) hg h100

/-- Witness for C6 (amended) on the mock job. -/
theorem progress_verbatim_and_completed100_witness :
    (pollTick WanFetch.noCapability (initPollState demoJob)
        (PollEvent.ok 37 "PROCESSING" "p")).job.progress = 37 ∧
    ((runPoll WanFetch.noCapability (initPollState demoJob)
        [PollEvent.ok 100 "COMPLETED" "done"]).job.status = JobStatusCompleted →
      (runPoll WanFetch.noCapability (initPollState demoJob)
        [PollEvent.ok 100 "COMPLETED" "done"]).job.progress = 100) :=
  progress_verbatim_and_completed100 WanFetch.noCapability
    (initPollState demoJob) 37 "PROCESSING" "p"
    [PollEvent.ok 100 "COMPLETED" "done"] demoJob
    rfl rfl (by decide) (by decide) (by decide) (by decide)

/-- C7 (code bug): at the failing input — a successful poll at 50% whose
stage the mock provider reports as `DIFFUSING_FRAMES` — the worker persists,
projects and broadcasts the raw stage label as the job status, which is not
one of the seven wire statuses enumerated by the entity. -/
theorem worker_persists_raw_stage_label :
    mockStage 50 = "DIFFUSING_FRAMES" ∧
    (runPoll WanFetch.noCapability (initPollState demoJob)
        [PollEvent.ok 50 (mockStage 50) "Progress: 50%"]).writes =
      ["DIFFUSING_FRAMES"] ∧
    (runPoll WanFetch.noCapability (initPollState demoJob)
        [PollEvent.ok 50 (mockStage 50) "Progress: 50%"]).job.status =
      "DIFFUSING_FRAMES" ∧
    "DIFFUSING_FRAMES" ∉ wireStatuses := by
  decide

/-- C10: when a job completes via the polling path, the video URL does not
come from the progress payload: any provider other than Wan AI gets the
hardcoded sample URL, and for Wan AI, if the URL capability is absent or
the fetch fails, the job is still completed with a
`dashscope://task/<handle>` placeholder. -/
theorem completeJob_url_policy (wf : WanFetch) (s : WorkerState) (pid : String)
    (hpid : s.job.providerJobID = some pid) :
    (s.job.provider ≠ ProviderWanAI →
      (completeStep wf s).job.videoURL = some bigBuckBunnyURL ∧
      (completeStep wf s).job.status = JobStatusCompleted) ∧
    (s.job.provider = ProviderWanAI →
      (wf = WanFetch.noCapability ∨ wf = WanFetch.fetchError) →
      (completeStep wf s).job.videoURL = some ("dashscope://task/" ++ pid) ∧
      (completeStep wf s).job.status = JobStatusCompleted) := by
  constructor
  · intro hne
    unfold completeStep
    rw [hpid]
    dsimp only
    rw [if_neg hne]
    rw [if_neg (by simp [bigBuckBunnyURL])]
    exact ⟨rfl, rfl⟩
  · intro hw hcase
    unfold completeStep
    rw [hpid]
    dsimp only
    rw [if_pos hw]
    rcases hcase with rfl | rfl
    · rw [if_pos ⟨rfl, hw⟩]
      exact ⟨rfl, rfl⟩
    · rw [if_pos ⟨rfl, hw⟩]
      exact ⟨rfl, rfl⟩

/-- Witness for C10 on a Wan AI job whose URL fetch fails. -/
theorem completeJob_url_policy_witness :
    ((initPollState demoWanJob).job.provider ≠ ProviderWanAI →
      (completeStep WanFetch.fetchError (initPollState demoWanJob)).job.videoURL =
        some bigBuckBunnyURL ∧
      (completeStep WanFetch.fetchError
        (initPollState demoWanJob)).job.status = JobStatusCompleted) ∧
    ((initPollState demoWanJob).job.provider = ProviderWanAI →
      (WanFetch.fetchError = WanFetch.noCapability ∨
        WanFetch.fetchError = WanFetch.fetchError) →
      (completeStep WanFetch.fetchError (initPollState demoWanJob)).job.videoURL =
        some ("dashscope://task/" ++ "dash-task-9") ∧
      (completeStep WanFetch.fetchError
        (initPollState demoWanJob)).job.status = JobStatusCompleted) :=
  completeJob_url_policy WanFetch.fetchError (initPollState demoWanJob)
    "dash-task-9" rfl

/-! ## Claims C8, C9: the video use case -/

/-- C8: cancelling one's own pending job succeeds, moves it to `cancelled`
and refunds exactly its `CreditsCharged`; cancelling a completed job is
rejected with the cannot-be-cancelled error before any mutation or refund. -/
theorem cancelJob_policy (caller : Nat) (jobP jobC : VideoJob)
    (bal1 bal2 : Int)
    (hP1 : jobP.userID = caller) (hP2 : jobP.status = JobStatusPending)
    (hC1 : jobC.userID = caller) (hC2 : jobC.status = JobStatusCompleted) :
    cancelJob caller jobP bal1 =
      Except.ok (jobP.cancel, bal1 + jobP.creditsCharged) ∧
    (jobP.cancel).status = JobStatusCancelled ∧
    (jobP.cancel).creditsCharged = jobP.creditsCharged ∧
    cancelJob caller jobC bal2 = Except.error UsecaseError.jobCannotBeCancelled := by
  refine ⟨?_, rfl, rfl, ?_⟩
  · unfold cancelJob
    rw [if_neg (by simp [hP1])]
    rw [if_neg (by simp [VideoJob.canBeCancelled, hP2, JobStatusPending])]
    rfl
  · unfold cancelJob
    rw [if_neg (by simp [hC1])]
    rw [if_pos (by simp [VideoJob.canBeCancelled, hC2, JobStatusCompleted,
      JobStatusPending, JobStatusProcessing])]

/-- Witness for C8 on concrete pending and completed jobs. -/
theorem cancelJob_policy_witness :
    cancelJob 7 demoPendingJob 5 =
      Except.ok (demoPendingJob.cancel, 5 + demoPendingJob.creditsCharged) ∧
    (demoPendingJob.cancel).status = JobStatusCancelled ∧
    (demoPendingJob.cancel).creditsCharged = demoPendingJob.creditsCharged ∧
    cancelJob 7 demoDoneJob 5 = Except.error UsecaseError.jobCannotBeCancelled :=
  cancelJob_policy 7 demoPendingJob demoDoneJob 5 5 rfl rfl rfl rfl

/-- C9 counterexample: with a valid request, a 1-credit template and a
starting balance of 5, an enqueue failure propagates the error but leaves
the balance at 4 — the deducted credit is not refunded before
`GenerateVideo` returns, refuting "the user's credit balance ends up
unchanged overall". -/
theorem enqueue_failure_keeps_credits_deducted :
    (generateVideo 7 UserTierFree false demoTemplate "a user prompt" none
        false true 42 5).result = Except.error UsecaseError.enqueueFailed ∧
    (generateVideo 7 UserTierFree false demoTemplate "a user prompt" none
        false true 42 5).balance = 4 ∧
    (4 : Int) ≠ 5 := by
  refine ⟨rfl, rfl, by decide⟩

/-- C9 (amended): the enqueue-failure error is propagated, the job row is
left marked `failed`, and the credits remain deducted when `GenerateVideo`
returns (the source defers the refund to an external cleanup); credits are
refunded before returning only when the job-repository create fails. -/
theorem generateVideo_storage_failure_paths (userID : Nat) (tier : UserTier)
    (subExpired : Bool) (template : GvTemplate) (prompt : String)
    (reqParams : Option VideoParams) (jobID : Nat) (balance : Int) (eqf : Bool)
    (hact : template.isActive = true)
    (hgate : template.isPremium = true → userIsPremium tier subExpired = true)
    (hcred : template.creditCost ≤ balance) :
    ((generateVideo userID tier subExpired template prompt reqParams
        false true jobID balance).result =
          Except.error UsecaseError.enqueueFailed ∧
     (generateVideo userID tier subExpired template prompt reqParams
        false true jobID balance).balance = balance - template.creditCost ∧
     (∃ j, (generateVideo userID tier subExpired template prompt reqParams
        false true jobID balance).stored = some j ∧
        j.status = JobStatusFailed)) ∧
    ((generateVideo userID tier subExpired template prompt reqParams
        true eqf jobID balance).result =
          Except.error UsecaseError.createFailed ∧
     (generateVideo userID tier subExpired template prompt reqParams
        true eqf jobID balance).balance = balance) := by
  have hpg : ¬(template.isPremium = true ∧ ¬userIsPremium tier subExpired = true) := by
    rintro ⟨h1, h2⟩
    exact h2 (hgate h1)
  have hbal : ¬balance < template.creditCost := not_lt.mpr hcred
  constructor
  · unfold generateVideo
    rw [if_neg (by simp [hact]), if_neg hpg, if_neg hbal]
    simp [VideoJob.fail]
  · unfold generateVideo
    rw [if_neg (by simp [hact]), if_neg hpg, if_neg hbal]
    simp

/-- Witness for C9 (amended) on the demo template. -/
theorem generateVideo_storage_failure_paths_witness :
    ((generateVideo 7 UserTierFree false demoTemplate "a user prompt" none
        false true 42 5).result =
          Except.error UsecaseError.enqueueFailed ∧
     (generateVideo 7 UserTierFree false demoTemplate "a user prompt" none
        false true 42 5).balance = 5 - demoTemplate.creditCost ∧
     (∃ j, (generateVideo 7 UserTierFree false demoTemplate "a user prompt" none
        false true 42 5).stored = some j ∧ j.status = JobStatusFailed)) ∧
    ((generateVideo 7 UserTierFree false demoTemplate "a user prompt" none
        true false 42 5).result = Except.error UsecaseError.createFailed ∧
     (generateVideo 7 UserTierFree false demoTemplate "a user prompt" none
        true false 42 5).balance = 5) :=
  generateVideo_storage_failure_paths 7 UserTierFree false demoTemplate
    "a user prompt" none 42 5 false rfl (by decide) (by decide)

end Arabella
